import Mathlib

/-!
Verification of the FundTrackerAI backend (Identity and Ledger Registry).

Shallow embedding of `src/backend/server.js`.  The registry document and the
four core operations (donation recording with mark minting, handle
registration, order creation, payment reconciliation) are translated into
executable Lean definitions.  JavaScript conventions used by the source are
modelled as follows:

* a nullable / possibly-absent string field is a `String`, with `""` playing
  the role of `null` / `undefined` / `""` (all of which are falsy, and the
  source only ever tests these fields for truthiness);
* a nullable numeric field is an `Int`, with `0` the falsy value;
* `String.prototype.toLowerCase`, `includes`, `split("@")[1]` and `endsWith`
  are re-implemented over `String.data` character lists so that every
  definition evaluates by kernel reduction;
* the SHA-256 digest used for mark minting is an explicit function parameter
  `hash : String → String` (an external crypto primitive), applied to the
  same concatenation `email ++ timestamp ++ secret ++ nonce` as the source;
* the registry file is mutated by read-modify-write; each endpoint is a pure
  function from the parsed request plus the current registry document to a
  response value plus the new registry document.
-/

namespace FundTracker

/-- Models JavaScript `String.prototype.toLowerCase` (the source only ever
lowercases ASCII identifiers and email addresses; `Char.toLower` matches
`toLowerCase` on the basic latin range). -/
def toLowerCase (s : String) : String :=
  ⟨s.data.map Char.toLower⟩

/-- Models `email.includes("@")` for the single-character needle used by the
source. -/
def includesChar (s : String) (c : Char) : Bool :=
  s.data.contains c

/-- Models `email.split("@")[1]`: the segment strictly between the first `@`
and the following `@` (or the end of the string). -/
def domainAfterAt (email : String) : String :=
  ⟨(((email.data.dropWhile (fun c => !(c == '@'))).drop 1).takeWhile
      (fun c => !(c == '@')))⟩

/-- Models `domain.endsWith("." + d)` (JavaScript `String.prototype.endsWith`
with no end-position argument: suffix test). -/
def endsWithStr (s suffix : String) : Bool :=
  suffix.data.isSuffixOf s.data

/-- The Phase-1 deny-list of disposable email domains, verbatim from
`isDisposableEmail` in `server.js`. -/
def bannedDomains : List String :=
  ["mailinator.com", "10minutemail.com", "tempmail.com", "guerrillamail.com",
   "trashmail.com", "yopmail.com", "sharklasers.com"]

/-- Translation of `isDisposableEmail(email)` from `server.js`:
returns `false` for a falsy email or one without `"@"`, otherwise compares
the lowercased domain (the part after the first `@`) against the deny-list,
matching either the exact domain or any subdomain of a banned domain. -/
def isDisposableEmail (email : String) : Bool :=
  if email == "" || !(includesChar email '@') then false
  else
    let domain := toLowerCase (domainAfterAt email)
    bannedDomains.any (fun d => domain == d || endsWithStr domain ("." ++ d))

/-- DonationRecord: one entry of `registry.donations` (the shape written by
`/verify-donation/:id`).  `identity_username` is `null` or a string in the
source; `""` models `null`.  `order_id` is `null` or a non-empty order id;
`""` models `null`. -/
structure DonationRecord where
  id : String
  name : String
  email : String
  amount : Int
  timestamp : String
  soulmark : String
  username_created : Bool
  identity_username : String
  order_id : String
deriving DecidableEq

/-- Identity: one entry of `registry.identities`.  `displayIdentity` and
`showDonationAmount` are only written by the `/register` endpoint; for
identities created by `/register-username` they are absent, modelled by
`""` / `false`. -/
structure Identity where
  identity_id : String
  username : String
  email : String
  soulmarks : List String
  registered_since : String
  device_ids : List String
  displayIdentity : String
  showDonationAmount : Bool
deriving DecidableEq

/-- LineItem: one element of the `items` array accepted by `/create-order`.
`amount_cents` is present exactly when `typeof item.amount_cents === "number"`
holds in the source, and likewise `amount` (major units, may be fractional). -/
structure LineItem where
  sku : String
  label : String
  itemKind : String
  interval : String
  amount_cents : Option Int
  amount : Option ℚ
deriving DecidableEq

/-- OrderRecord: one entry of `registry.orders`, as created by
`/create-order`.  The nullable fields `stripe_session_id`,
`stripe_subscription_id` and `soulmark` use `""` for `null`; `updated_at` is
absent (`""`) until the order is settled. -/
structure OrderRecord where
  order_id : String
  app : String
  email : String
  items : List (Option LineItem)
  billing_mode : String
  total_amount_cents : Int
  status : String
  created_at : String
  stripe_session_id : String
  stripe_subscription_id : String
  soulmark : String
  updated_at : String
deriving DecidableEq

/-- RegistryDocument: the parsed content of `registry.json` with all three
collections present (the shape every `readRegistry()` call returns). -/
structure Registry where
  donations : List DonationRecord
  identities : List Identity
  orders : List OrderRecord
deriving DecidableEq

/-- In-place mutation of the record found by `Array.prototype.find`: the
first element satisfying `p` is replaced by its image under `f`; all other
elements are untouched.  This is how the source mutates the found donation /
identity / order object inside the array it lives in. -/
def updateFirst (p : α → Bool) (f : α → α) : List α → List α
  | [] => []
  | x :: xs => if p x then f x :: xs else x :: updateFirst p f xs

/-- Outcome of `POST /register-username` (`server.js`, the consolidated
claimHandle operation).  Constructors follow the source's rejection branches
in order: missing body fields (HTTP 400), the disposable-email guard (400),
the SoulMark-ownership anchor (400), the cross-email username conflict (409),
and the username-freeze conflict (409). -/
inductive RegisterResult where
  | missingFields
  | disposableEmail
  | markNotOwned
  | handleTaken
  | handleFrozen
  | ok (identity : Identity)
deriving DecidableEq

/-- Translation of the 6A ownership test of `/register-username`:
`donations.some(d => d.soulmark === soulmark && d.email &&
d.email.toLowerCase() === canonicalEmail)`. -/
def ownsSoulmarkB (donations : List DonationRecord)
    (soulmark canonicalEmail : String) : Bool :=
  donations.any (fun d =>
    d.soulmark == soulmark && !(d.email == "") &&
      toLowerCase d.email == canonicalEmail)

/-- Step 6D of `/register-username` (shared with `/register`): every donation
whose email matches the canonical email is stamped with the identity's
username. -/
def stampDonations (donations : List DonationRecord)
    (canonicalEmail canonicalUsername : String) : List DonationRecord :=
  donations.map (fun d =>
    if !(d.email == "") && toLowerCase d.email == canonicalEmail then
      { d with username_created := true, identity_username := canonicalUsername }
    else d)

/-- The identity object created by `/register-username` when no identity
exists for the canonical email: the username is stored canonicalized, the
email as presented, the mark list is seeded, and the optional device id is
recorded. -/
def freshIdentity (email canonicalUsername soulmark device_id new_id now :
    String) : Identity :=
  { identity_id := "ias-" ++ new_id
    username := canonicalUsername
    email := email
    soulmarks := [soulmark]
    registered_since := now
    device_ids := if !(device_id == "") then [device_id] else []
    displayIdentity := ""
    showDonationAmount := false }

/-- The in-place mutation `/register-username` applies to an existing
identity that passed the freeze check: the username is set (or confirmed) to
the canonical username, and the soulmark / device id are appended when not
already present (set-like accumulation). -/
def accumulateIdentity (identity : Identity)
    (canonicalUsername soulmark device_id : String) : Identity :=
  { identity with
      username := canonicalUsername
      soulmarks :=
        if identity.soulmarks.contains soulmark then identity.soulmarks
        else identity.soulmarks ++ [soulmark]
      device_ids :=
        if !(device_id == "") && !(identity.device_ids.contains device_id) then
          identity.device_ids ++ [device_id]
        else identity.device_ids }

/-- Translation of `POST /register-username` from `server.js` (the claimHandle
operation of the Identity Registry):

1. reject when `email`, `username` or `soulmark` is missing;
2. reject a disposable email;
3. 6A — reject unless some donation binds this soulmark to this canonical
   email;
4. 6B — reject when a different email's identity already owns the canonical
   username;
5. 6C — create an identity if the email has none, otherwise enforce the
   username freeze and accumulate the soulmark / device id (set-like);
6. 6D — stamp matching donations.

`new_id` stands for the fresh `crypto.randomUUID()` and `now` for the
`new Date().toISOString()` timestamp taken by the source. -/
def registerUsername (email username soulmark device_id new_id now : String)
    (reg : Registry) : RegisterResult × Registry :=
  if email == "" || username == "" || soulmark == "" then
    (.missingFields, reg)
  else if isDisposableEmail email then
    (.disposableEmail, reg)
  else
    let canonicalUsername := toLowerCase username
    let canonicalEmail := toLowerCase email
    if !(ownsSoulmarkB reg.donations soulmark canonicalEmail) then
      (.markNotOwned, reg)
    else if (reg.identities.find? (fun i =>
        toLowerCase i.username == canonicalUsername &&
          !(toLowerCase i.email == canonicalEmail))).isSome then
      (.handleTaken, reg)
    else
      match reg.identities.find? (fun i =>
          toLowerCase i.email == canonicalEmail) with
      | none =>
        let identity := freshIdentity email canonicalUsername soulmark
          device_id new_id now
        (.ok identity,
          { reg with
              identities := reg.identities ++ [identity]
              donations := stampDonations reg.donations canonicalEmail
                canonicalUsername })
      | some identity =>
        if !(toLowerCase identity.username == "") &&
            !(toLowerCase identity.username == canonicalUsername) then
          (.handleFrozen, reg)
        else
          let identity2 := accumulateIdentity identity canonicalUsername
            soulmark device_id
          (.ok identity2,
            { reg with
                identities := updateFirst
                  (fun i => toLowerCase i.email == canonicalEmail)
                  (fun _ => identity2) reg.identities
                donations := stampDonations reg.donations canonicalEmail
                  canonicalUsername })

/-- Outcome of `POST /register` (the donor/non-donor signup revision of
`server.js`). -/
inductive SignupResult where
  | missingFields
  | usernameTaken
  | ok (identity : Identity)
deriving DecidableEq

/-- Translation of `POST /register` from `server.js` (the revision that
supports both donor and non-donor signups).  It checks only the username for
conflicts and then unconditionally appends a new identity; donor signups
(those presenting a non-null soulmark) also stamp matching donations. -/
def register (email username soulmark displayIdentity : String)
    (showDonationAmount : Bool) (new_id now : String) (reg : Registry) :
    SignupResult × Registry :=
  if email == "" || username == "" then
    (.missingFields, reg)
  else
    let isDonorSignup := !(soulmark == "") && !(soulmark == "null")
    let canonicalUsername := toLowerCase username
    let canonicalEmail := toLowerCase email
    if (reg.identities.find? (fun i =>
        toLowerCase i.username == canonicalUsername)).isSome then
      (.usernameTaken, reg)
    else
      let newIdentity : Identity :=
        { identity_id := "ias-" ++ new_id
          username := canonicalUsername
          email := canonicalEmail
          soulmarks := if isDonorSignup then [soulmark] else []
          registered_since := now
          device_ids := []
          displayIdentity :=
            if !(displayIdentity == "") then displayIdentity else "username"
          showDonationAmount := showDonationAmount }
      (.ok newIdentity,
        { reg with
            identities := reg.identities ++ [newIdentity]
            donations :=
              if isDonorSignup then
                stampDonations reg.donations canonicalEmail canonicalUsername
              else reg.donations })

/-- Models JavaScript `Math.round` on the exact rational value: round half
away from zero toward positive infinity (`Math.round(x) = floor(x + 0.5)`). -/
def jsRound (q : ℚ) : Int :=
  ⌊q + 1 / 2⌋

/-- One step of the `items.reduce` total computation of `/create-order`:
skip a falsy item, prefer a numeric `amount_cents`, fall back to rounding a
numeric major-unit `amount` times 100, else contribute nothing. -/
def itemAdd (sum : Int) (it : Option LineItem) : Int :=
  match it with
  | none => sum
  | some i =>
    match i.amount_cents with
    | some c => sum + c
    | none =>
      match i.amount with
      | some a => sum + jsRound (a * 100)
      | none => sum

/-- Translation of the `items.reduce(..., 0)` total of `/create-order`. -/
def orderTotalCents (items : List (Option LineItem)) : Int :=
  items.foldl itemAdd 0

/-- Outcome of `POST /create-order`. -/
inductive CreateOrderResult where
  | missingEmailOrItems
  | invalidTotal
  | ok (order : OrderRecord)
deriving DecidableEq

/-- Translation of `POST /create-order` from `server.js`: reject when the
email is missing or the item list is empty, compute the minor-unit total,
reject a non-positive total, otherwise append a `pending_payment` order.
`order_id` stands for the generated `"ord-" + crypto.randomUUID()` and `now`
for the creation timestamp. -/
def createOrder (appName email : String) (items : List (Option LineItem))
    (billing_mode order_id now : String) (reg : Registry) :
    CreateOrderResult × Registry :=
  if email == "" || items.length == 0 then
    (.missingEmailOrItems, reg)
  else
    let billingMode := if !(billing_mode == "") then billing_mode else "one_time"
    let totalAmountCents := orderTotalCents items
    if totalAmountCents ≤ 0 then
      (.invalidTotal, reg)
    else
      let order : OrderRecord :=
        { order_id := order_id
          app := if !(appName == "") then appName else "generic"
          email := email
          items := items
          billing_mode := billingMode
          total_amount_cents := totalAmountCents
          status := "pending_payment"
          created_at := now
          stripe_session_id := ""
          stripe_subscription_id := ""
          soulmark := ""
          updated_at := "" }
      (.ok order, { reg with orders := reg.orders ++ [order] })

/-- The slice of a Stripe Checkout session consumed by
`/verify-donation/:id` (retrieved from the external payment processor).
Optional upstream strings use `""` for null/absent, matching the `||`
fallback chains of the source. -/
structure StripeSession where
  id : String
  payment_status : String
  customer_details_email : String
  customer_details_name : String
  customer_email : String
  metadata_donorName : String
  metadata_order_id : String
  amount_total : Int
deriving DecidableEq

/-- Fallback chain `session.customer_details?.email || session.customer_email
|| "unknown@example.com"`. -/
def sessionEmail (s : StripeSession) : String :=
  if !(s.customer_details_email == "") then s.customer_details_email
  else if !(s.customer_email == "") then s.customer_email
  else "unknown@example.com"

/-- Fallback chain `session.customer_details?.name ||
session.metadata?.donorName || ""`. -/
def sessionDonorName (s : StripeSession) : String :=
  if !(s.customer_details_name == "") then s.customer_details_name
  else s.metadata_donorName

/-- Mark minting: `sha256(email + now + SOULMARK_SECRET + nonce)`, with the
digest given as the function parameter `hash`. -/
def mintSoulmark (hash : String → String) (email now secret nonce : String) :
    String :=
  hash (email ++ now ++ secret ++ nonce)

/-- Backfill of an already-recorded donation on a repeat confirmation
(`/verify-donation/:id`, the `else` branch): each of `name`, `email`,
`amount`, `timestamp` and `soulmark` is overwritten only when falsy, the
soulmark with a freshly minted `mark`; `order_id` is set once when a linked
order id is present and the field was null. -/
def backfillDonation (d : DonationRecord) (donorName email : String)
    (amount : Int) (now mark linkedOrderId : String) : DonationRecord :=
  { d with
      name := if !(d.name == "") then d.name
        else if !(donorName == "") then donorName else "Donor"
      email := if !(d.email == "") then d.email else email
      amount := if !(d.amount == 0) then d.amount else amount
      timestamp := if !(d.timestamp == "") then d.timestamp else now
      soulmark := if !(d.soulmark == "") then d.soulmark else mark
      order_id :=
        if !(linkedOrderId == "") && d.order_id == "" then linkedOrderId
        else d.order_id }

/-- The fresh donation entry minted on a first confirmation
(`/verify-donation/:id`, the `if (!donation)` branch). -/
def newDonation (sid donorName email : String) (amount : Int)
    (now mark linkedOrderId : String) : DonationRecord :=
  { id := sid
    name := if !(donorName == "") then donorName else "Donor"
    email := email
    amount := amount
    timestamp := now
    soulmark := mark
    username_created := false
    identity_username := ""
    order_id := linkedOrderId }

/-- Settlement of the linked order (`if (linkedOrder)` in
`/verify-donation/:id`): status is forced to `"paid"`, the soulmark is copied
from the donation when the order has none, and `updated_at` is stamped with
the current time. -/
def settleOrder (o : OrderRecord) (mark now : String) : OrderRecord :=
  { o with
      status := "paid"
      soulmark := if !(o.soulmark == "") then o.soulmark else mark
      updated_at := now }

/-- Outcome of `GET /verify-donation/:id`: either the negative
`unpaid_or_missing` result, or the verified entry together with the linked
order id (`""` when none). -/
inductive VerifyResult where
  | unpaidOrMissing
  | verified (entry : DonationRecord) (orderId : String)
deriving DecidableEq

/-- Translation of `GET /verify-donation/:id` from `server.js` (the Orders
revision): retrieve the session from the processor (`none` models a missing
session), return the negative result unless the payment status is `"paid"`,
then record the donation idempotently (minting a soulmark at most once per
session id) and settle the order correlated through
`session.metadata.order_id`, if any. -/
def verifyDonation (hash : String → String) (secret : String)
    (session : Option StripeSession) (now nonce : String) (reg : Registry) :
    VerifyResult × Registry :=
  match session with
  | none => (.unpaidOrMissing, reg)
  | some s =>
    if !(s.payment_status == "paid") then (.unpaidOrMissing, reg)
    else
      let email := sessionEmail s
      let donorName := sessionDonorName s
      let amount := s.amount_total
      let linkedOrderId := s.metadata_order_id
      let mark := mintSoulmark hash email now secret nonce
      let entry :=
        match reg.donations.find? (fun d => d.id == s.id) with
        | none => newDonation s.id donorName email amount now mark linkedOrderId
        | some d => backfillDonation d donorName email amount now mark
            linkedOrderId
      let donations2 :=
        match reg.donations.find? (fun d => d.id == s.id) with
        | none => reg.donations ++ [entry]
        | some _ => updateFirst (fun d => d.id == s.id)
            (fun d => backfillDonation d donorName email amount now mark
              linkedOrderId) reg.donations
      let orders2 :=
        if !(linkedOrderId == "") &&
            (reg.orders.find? (fun o => o.order_id == linkedOrderId)).isSome
        then updateFirst (fun o => o.order_id == linkedOrderId)
          (fun o => settleOrder o entry.soulmark now) reg.orders
        else reg.orders
      (.verified entry linkedOrderId,
        { reg with donations := donations2, orders := orders2 })

/-- A stored collection field as found after `JSON.parse`: either an actual
array, or any other JSON value (string, number, object, null, or an absent
field — everything `Array.isArray` rejects), remembered with a tag. -/
inductive JColl (α : Type) where
  | arr (l : List α)
  | notArr (tag : String)
deriving DecidableEq

/-- The raw parsed shape of `registry.json` before normalization. -/
structure RawRegistry where
  donations : JColl DonationRecord
  identities : JColl Identity
  orders : JColl OrderRecord
deriving DecidableEq

/-- State of the registry file on disk: absent, present but not valid JSON,
or parsed into a raw document. -/
inductive Storage where
  | missing
  | unparsable (raw : String)
  | parsed (doc : RawRegistry)
deriving DecidableEq

/-- Normalization of one collection field (`if (!Array.isArray(x)) x = []`). -/
def coerceColl : JColl α → List α
  | .arr l => l
  | .notArr _ => []

/-- Translation of `ensureRegistry()` from `server.js` (Orders revision):
initialize an absent file; back up and reset an unparsable file (the second
component carries the preserved corrupt payload); coerce every non-array
collection of a parsed file to `[]` and persist the repaired document.  The
returned `Storage` is the file state after the call. -/
def ensureRegistry : Storage → Storage × Option String
  | .missing =>
    (.parsed { donations := .arr [], identities := .arr [], orders := .arr [] },
      none)
  | .unparsable raw =>
    (.parsed { donations := .arr [], identities := .arr [], orders := .arr [] },
      some raw)
  | .parsed doc =>
    (.parsed
      { donations := .arr (coerceColl doc.donations)
        identities := .arr (coerceColl doc.identities)
        orders := .arr (coerceColl doc.orders) },
      none)

/-- Translation of `readRegistry()` from `server.js`: run `ensureRegistry`,
then parse the (now structurally valid) file into a `Registry`; the defensive
catch returns empty collections.  The second component is the file state
after the call. -/
def readRegistry (st : Storage) : Registry × Storage :=
  let st2 := (ensureRegistry st).1
  match st2 with
  | .parsed doc =>
    ({ donations := coerceColl doc.donations
       identities := coerceColl doc.identities
       orders := coerceColl doc.orders }, st2)
  | _ => ({ donations := [], identities := [], orders := [] }, st2)

/-- Canonical (lowercased) email of an identity, the key of the
one-identity-per-email binding. -/
def canonEmail (i : Identity) : String :=
  toLowerCase i.email

/-- Canonical (lowercased) handle of an identity, the key of handle
uniqueness. -/
def canonHandle (i : Identity) : String :=
  toLowerCase i.username

/-- No two identities of the registry share a canonical email. -/
def emailsUnique (reg : Registry) : Prop :=
  reg.identities.Pairwise (fun a b => canonEmail a ≠ canonEmail b)

/-- No two identities of the registry share a canonical handle. -/
def handlesUnique (reg : Registry) : Prop :=
  reg.identities.Pairwise (fun a b => canonHandle a ≠ canonHandle b)

instance (reg : Registry) : Decidable (emailsUnique reg) :=
  List.instDecidablePairwise _

instance (reg : Registry) : Decidable (handlesUnique reg) :=
  List.instDecidablePairwise _

/-- Minor-unit contribution of one line item as the specification words it:
the item's `amount_cents` when that field is a number, else
`round(amount × 100)` when `amount` is a number, else nothing (a falsy item
also contributes nothing). -/
def specItemMinorUnits (it : Option LineItem) : Int :=
  match it with
  | none => 0
  | some i =>
    match i.amount_cents with
    | some c => c
    | none =>
      match i.amount with
      | some a => jsRound (a * 100)
      | none => 0

/-- One parsed `/register-username` request: caller-supplied fields plus the
fresh uuid and timestamp the handler draws. -/
structure RegReq where
  email : String
  username : String
  soulmark : String
  device_id : String
  new_id : String
  now : String
deriving DecidableEq

/-- The registry state after one `/register-username` call (the response is
discarded; a rejected call leaves the registry unchanged). -/
def applyRegisterUsername (reg : Registry) (r : RegReq) : Registry :=
  (registerUsername r.email r.username r.soulmark r.device_id r.new_id r.now
    reg).2

theorem length_updateFirst (p : α → Bool) (f : α → α) (l : List α) :
    (updateFirst p f l).length = l.length := by
  induction l with
  | nil => rfl
  | cons x xs ih =>
    by_cases h : p x
    · simp [updateFirst, h]
    · simp [updateFirst, h, ih]

theorem mem_updateFirst {p : α → Bool} {f : α → α} {l : List α} {z : α}
    (hz : z ∈ updateFirst p f l) :
    z ∈ l ∨ ∃ y ∈ l, p y = true ∧ z = f y := by
  induction l with
  | nil => simp [updateFirst] at hz
  | cons x xs ih =>
    by_cases h : p x
    · simp only [updateFirst, h, if_pos] at hz
      rcases List.mem_cons.mp hz with h1 | h1
      · exact Or.inr ⟨x, List.mem_cons_self x xs, h, h1⟩
      · exact Or.inl (List.mem_cons_of_mem x h1)
    · simp only [updateFirst, h, if_neg, Bool.false_eq_true, not_false_iff] at hz
      rcases List.mem_cons.mp hz with h1 | h1
      · exact Or.inl (h1 ▸ List.mem_cons_self x xs)
      · rcases ih h1 with h2 | ⟨y, hy, hpy, hzy⟩
        · exact Or.inl (List.mem_cons_of_mem x h2)
        · exact Or.inr ⟨y, List.mem_cons_of_mem x hy, hpy, hzy⟩

theorem find?_updateFirst {p : α → Bool} {f : α → α} {l : List α} {a : α}
    (hfind : l.find? p = some a) (hfa : p (f a) = true) :
    (updateFirst p f l).find? p = some (f a) := by
  induction l with
  | nil => simp at hfind
  | cons x xs ih =>
    by_cases h : p x
    · rw [List.find?_cons_of_pos _ h] at hfind
      injection hfind with hxa
      subst hxa
      simp only [updateFirst, h, if_pos]
      exact List.find?_cons_of_pos _ hfa
    · rw [List.find?_cons_of_neg _ h] at hfind
      simp only [updateFirst, h, if_neg, Bool.false_eq_true, not_false_iff]
      rw [List.find?_cons_of_neg _ h]
      exact ih hfind

theorem countP_updateFirst {p : α → Bool} {f : α → α} {q : α → Bool}
    (hq : ∀ x, q (f x) = q x) (l : List α) :
    (updateFirst p f l).countP q = l.countP q := by
  induction l with
  | nil => rfl
  | cons x xs ih =>
    by_cases h : p x
    · simp only [updateFirst, h, if_pos]
      by_cases hx : q x
      · rw [List.countP_cons_of_pos _ _ ((hq x).symm ▸ hx),
            List.countP_cons_of_pos _ _ hx]
      · rw [List.countP_cons_of_neg, List.countP_cons_of_neg _ _ hx]
        rw [hq x]; exact hx
    · simp only [updateFirst, h, if_neg, Bool.false_eq_true, not_false_iff]
      by_cases hx : q x
      · rw [List.countP_cons_of_pos _ _ hx, List.countP_cons_of_pos _ _ hx, ih]
      · rw [List.countP_cons_of_neg _ _ hx, List.countP_cons_of_neg _ _ hx, ih]

theorem pairwise_updateFirst {R : α → α → Prop} {p : α → Bool} {f : α → α}
    {l : List α} (h : l.Pairwise R)
    (hf : ∀ x ∈ l, p x = true →
      ∀ y ∈ l, (R x y → R (f x) y) ∧ (R y x → R y (f x))) :
    (updateFirst p f l).Pairwise R := by
  induction l with
  | nil => exact List.Pairwise.nil
  | cons x xs ih =>
    rcases List.pairwise_cons.mp h with ⟨hx, hxs⟩
    by_cases hp : p x
    · simp only [updateFirst, hp, if_pos]
      refine List.pairwise_cons.mpr ⟨fun y hy => ?_, hxs⟩
      exact (hf x (List.mem_cons_self x xs) hp y (List.mem_cons_of_mem x hy)).1
        (hx y hy)
    · simp only [updateFirst, hp, if_neg, Bool.false_eq_true, not_false_iff]
      refine List.pairwise_cons.mpr ⟨fun z hz => ?_, ?_⟩
      · rcases mem_updateFirst hz with h1 | ⟨y, hy, hpy, hzy⟩
        · exact hx z h1
        · subst hzy
          exact (hf y (List.mem_cons_of_mem x hy) hpy x
            (List.mem_cons_self x xs)).2 (hx y hy)
      · exact ih hxs (fun a ha hpa b hb =>
          hf a (List.mem_cons_of_mem x ha) hpa b (List.mem_cons_of_mem x hb))

theorem char_toLower_idem (c : Char) : (c.toLower).toLower = c.toLower := by
  unfold Char.toLower
  by_cases h : c.toNat ≥ 65 ∧ c.toNat ≤ 90
  · rw [if_pos h]
    have hv : (Char.ofNat (c.toNat + 32)).toNat = c.toNat + 32 := by
      rw [Char.ofNat, dif_pos (Or.inl (by omega))]
      simp [Char.ofNatAux, Char.toNat, UInt32.toNat]
    rw [if_neg]
    rw [hv]
    omega
  · rw [if_neg h, if_neg h]

theorem toLowerCase_idem (s : String) :
    toLowerCase (toLowerCase s) = toLowerCase s := by
  unfold toLowerCase
  refine congrArg String.mk ?_
  show (s.data.map Char.toLower).map Char.toLower = s.data.map Char.toLower
  rw [List.map_map]
  exact List.map_congr_left (fun c _ => char_toLower_idem c)

theorem itemAdd_eq (sum : Int) (it : Option LineItem) :
    itemAdd sum it = sum + specItemMinorUnits it := by
  cases it with
  | none => simp [itemAdd, specItemMinorUnits]
  | some i =>
    cases hc : i.amount_cents with
    | some c => simp [itemAdd, specItemMinorUnits, hc]
    | none =>
      cases ha : i.amount with
      | some a => simp [itemAdd, specItemMinorUnits, hc, ha]
      | none => simp [itemAdd, specItemMinorUnits, hc, ha]

/-- The reduce-based order total of the source equals the per-item sum the
specification describes. -/
theorem orderTotalCents_eq_sum (items : List (Option LineItem)) :
    orderTotalCents items = (items.map specItemMinorUnits).sum := by
  suffices h : ∀ acc : Int,
      items.foldl itemAdd acc = acc + (items.map specItemMinorUnits).sum by
    simpa [orderTotalCents] using h 0
  induction items with
  | nil => intro acc; simp
  | cons x xs ih =>
    intro acc
    simp only [List.foldl_cons, itemAdd_eq, ih, List.map_cons, List.sum_cons]
    omega


theorem canonEmail_freshIdentity (e cu s d n t : String) :
    canonEmail (freshIdentity e cu s d n t) = toLowerCase e := rfl

theorem canonHandle_freshIdentity (e u s d n t : String) :
    canonHandle (freshIdentity e (toLowerCase u) s d n t) = toLowerCase u := by
  show toLowerCase (toLowerCase u) = toLowerCase u
  exact toLowerCase_idem u

theorem canonEmail_accumulateIdentity (i : Identity) (cu s d : String) :
    canonEmail (accumulateIdentity i cu s d) = canonEmail i := rfl

theorem canonHandle_accumulateIdentity (i : Identity) (u s d : String) :
    canonHandle (accumulateIdentity i (toLowerCase u) s d) = toLowerCase u := by
  show toLowerCase (toLowerCase u) = toLowerCase u
  exact toLowerCase_idem u

theorem registerUsername_preserves_unique
    (email username soulmark device_id new_id now : String) (reg : Registry)
    (hE : emailsUnique reg) (hH : handlesUnique reg) :
    emailsUnique (registerUsername email username soulmark device_id new_id now reg).2 ∧
    handlesUnique (registerUsername email username soulmark device_id new_id now reg).2 := by
  simp only [registerUsername]
  by_cases h1 : (email == "" || username == "" || soulmark == "") = true
  · rw [if_pos h1]; exact ⟨hE, hH⟩
  rw [if_neg h1]
  by_cases h2 : isDisposableEmail email = true
  · rw [if_pos h2]; exact ⟨hE, hH⟩
  rw [if_neg h2]
  by_cases h3 : (!ownsSoulmarkB reg.donations soulmark (toLowerCase email)) = true
  · rw [if_pos h3]; exact ⟨hE, hH⟩
  rw [if_neg h3]
  by_cases h4 : (List.find? (fun i =>
      toLowerCase i.username == toLowerCase username && !(toLowerCase i.email == toLowerCase email))
      reg.identities).isSome = true
  · rw [if_pos h4]; exact ⟨hE, hH⟩
  rw [if_neg h4]
  have hconf : ∀ a ∈ reg.identities,
      toLowerCase a.email ≠ toLowerCase email → toLowerCase a.username ≠ toLowerCase username := by
    intro a ha hae hau
    have hnone : List.find? (fun i =>
        toLowerCase i.username == toLowerCase username && !(toLowerCase i.email == toLowerCase email))
        reg.identities = none := Option.not_isSome_iff_eq_none.mp h4
    have hna := List.find?_eq_none.mp hnone a ha
    apply hna
    rw [Bool.and_eq_true, beq_iff_eq, Bool.not_eq_true', beq_eq_false_iff_ne]
    exact ⟨hau, hae⟩
  cases hfe : List.find? (fun i => toLowerCase i.email == toLowerCase email) reg.identities with
  | none =>
    simp only []
    have hnewE : ∀ a ∈ reg.identities, toLowerCase a.email ≠ toLowerCase email := by
      intro a ha
      have hna := List.find?_eq_none.mp hfe a ha
      simpa [beq_iff_eq] using hna
    constructor
    · show List.Pairwise _ (reg.identities ++ [_])
      rw [List.pairwise_append]
      refine ⟨hE, List.pairwise_singleton _ _, ?_⟩
      intro a ha b hb
      rcases List.mem_singleton.mp hb with rfl
      show canonEmail a ≠ canonEmail _
      rw [canonEmail_freshIdentity]
      exact hnewE a ha
    · show List.Pairwise _ (reg.identities ++ [_])
      rw [List.pairwise_append]
      refine ⟨hH, List.pairwise_singleton _ _, ?_⟩
      intro a ha b hb
      rcases List.mem_singleton.mp hb with rfl
      show canonHandle a ≠ canonHandle _
      rw [canonHandle_freshIdentity]
      exact hconf a ha (hnewE a ha)
  | some identity =>
    simp only []
    by_cases h5 : (!(toLowerCase identity.username == "") &&
        !(toLowerCase identity.username == toLowerCase username)) = true
    · rw [if_pos h5]; exact ⟨hE, hH⟩
    rw [if_neg h5]
    have hcomb : reg.identities.Pairwise
        (fun a b => canonEmail a ≠ canonEmail b ∧ canonHandle a ≠ canonHandle b) :=
      hE.and hH
    have hres : (updateFirst (fun i => toLowerCase i.email == toLowerCase email)
        (fun _ => accumulateIdentity identity (toLowerCase username) soulmark device_id)
        reg.identities).Pairwise
        (fun a b => canonEmail a ≠ canonEmail b ∧ canonHandle a ≠ canonHandle b) := by
      apply pairwise_updateFirst hcomb
      intro x hx hpx y hy
      have hxE : toLowerCase x.email = toLowerCase email := beq_iff_eq.mp hpx
      have hps := List.find?_some hfe
      have hidE : toLowerCase identity.email = toLowerCase email := beq_iff_eq.mp hps
      have haccE : canonEmail (accumulateIdentity identity (toLowerCase username) soulmark device_id)
          = canonEmail x := by
        rw [canonEmail_accumulateIdentity]
        show toLowerCase identity.email = canonEmail x
        rw [hidE]; exact hxE.symm
      have haccH : canonHandle (accumulateIdentity identity (toLowerCase username) soulmark device_id)
          = toLowerCase username := canonHandle_accumulateIdentity identity username soulmark device_id
      constructor
      · rintro ⟨rE, rH⟩
        refine ⟨by rw [haccE]; exact rE, ?_⟩
        rw [haccH]
        intro hyu
        have hyE : toLowerCase y.email = toLowerCase email := by
          by_contra hne
          exact hconf y hy hne hyu.symm
        exact rE (by show toLowerCase x.email = toLowerCase y.email; rw [hxE, hyE])
      · rintro ⟨rE, rH⟩
        refine ⟨by rw [haccE]; exact rE, ?_⟩
        rw [haccH]
        intro hyu
        have hyE : toLowerCase y.email = toLowerCase email := by
          by_contra hne
          exact hconf y hy hne hyu
        exact rE (by show toLowerCase y.email = toLowerCase x.email; rw [hxE, hyE])
    exact ⟨hres.imp (fun h => h.1), hres.imp (fun h => h.2)⟩


/-- Claim C10: the disposable-email gate never rejects a malformed email —
for every email that is empty or contains no `@`, `isDisposableEmail`
returns `false`, so a `/register-username` (claimHandle) call with such an
email is never rejected as disposable. -/
theorem claim_C10_malformed_email_passes_gate (email : String)
    (h : email = "" ∨ includesChar email '@' = false) :
    isDisposableEmail email = false ∧
    ∀ username soulmark device_id new_id now reg,
      (registerUsername email username soulmark device_id new_id now reg).1 ≠
        RegisterResult.disposableEmail := by
  have hgate : isDisposableEmail email = false := by
    unfold isDisposableEmail
    rcases h with h | h
    · rw [if_pos]
      rw [h]
      simp
    · rw [if_pos]
      simp [h]
  refine ⟨hgate, ?_⟩
  intro username soulmark device_id new_id now reg
  simp only [registerUsername]
  by_cases h1 : (email == "" || username == "" || soulmark == "") = true
  · rw [if_pos h1]; simp
  rw [if_neg h1, hgate]
  rw [if_neg (by simp)]
  by_cases h3 : (!ownsSoulmarkB reg.donations soulmark (toLowerCase email)) = true
  · rw [if_pos h3]; simp
  rw [if_neg h3]
  by_cases h4 : (List.find? (fun i =>
      toLowerCase i.username == toLowerCase username &&
        !(toLowerCase i.email == toLowerCase email)) reg.identities).isSome = true
  · rw [if_pos h4]; simp
  rw [if_neg h4]
  cases hfe : List.find? (fun i => toLowerCase i.email == toLowerCase email)
      reg.identities with
  | none => simp
  | some identity =>
    simp only []
    by_cases h5 : (!(toLowerCase identity.username == "") &&
        !(toLowerCase identity.username == toLowerCase username)) = true
    · rw [if_pos h5]; simp
    · rw [if_neg h5]; simp

theorem claim_C10_witness :
    isDisposableEmail "nope" = false ∧
    (registerUsername "nope" "nova" "mk" "" "id" "t"
      { donations := [], identities := [], orders := [] }).1 ≠
      RegisterResult.disposableEmail :=
  ⟨(claim_C10_malformed_email_passes_gate "nope" (Or.inr (by decide))).1,
   (claim_C10_malformed_email_passes_gate "nope" (Or.inr (by decide))).2
     "nova" "mk" "" "id" "t" { donations := [], identities := [], orders := [] }⟩

/-- Claim C8: loading a stored registry that parsed but whose `donations`
field is not an array coerces that field to an empty list, persists the
repaired document, and returns a structurally valid document (no exception
is possible: `readRegistry` is total).  In particular a stored
`{"donations": "not-a-list"}` loads as a document with `donations = []`. -/
theorem claim_C8_malformed_collection_coerced (tag : String)
    (idc : JColl Identity) (ordc : JColl OrderRecord) :
    (readRegistry (Storage.parsed
      { donations := JColl.notArr tag, identities := idc,
        orders := ordc })).1.donations = [] ∧
    ∃ doc : RawRegistry,
      (readRegistry (Storage.parsed
        { donations := JColl.notArr tag, identities := idc,
          orders := ordc })).2 = Storage.parsed doc ∧
      doc.donations = JColl.arr [] := by
  exact ⟨rfl, ⟨_, rfl, rfl⟩⟩

/-- Claim C9: a missing upstream session, or one whose payment status is not
`"paid"`, yields the negative `unpaid_or_missing` result and leaves the
registry untouched — no donation is recorded, no mark minted, no order
changed. -/
theorem claim_C9_unpaid_or_missing_no_mutation (hash : String → String)
    (secret : String) (session : Option StripeSession) (now nonce : String)
    (reg : Registry)
    (h : session = none ∨ ∃ s, session = some s ∧ s.payment_status ≠ "paid") :
    verifyDonation hash secret session now nonce reg =
      (VerifyResult.unpaidOrMissing, reg) := by
  rcases h with rfl | ⟨s, rfl, hs⟩
  · rfl
  · have hb : (s.payment_status == "paid") = false := beq_eq_false_iff_ne.mpr hs
    simp [verifyDonation, hb]

theorem claim_C9_witness :
    verifyDonation (fun x => x) "sec"
      (some { id := "s1", payment_status := "open",
              customer_details_email := "", customer_details_name := "",
              customer_email := "", metadata_donorName := "",
              metadata_order_id := "", amount_total := 0 }) "t" "n"
      { donations := [], identities := [], orders := [] } =
      (VerifyResult.unpaidOrMissing,
        { donations := [], identities := [], orders := [] }) :=
  claim_C9_unpaid_or_missing_no_mutation (fun x => x) "sec" _ "t" "n" _
    (Or.inr ⟨_, rfl, by decide⟩)


/-- Claim C4 (amended): starting from any registry in which no two identities
share a canonical email and no two share a canonical handle, any sequence of
`/register-username` (claimHandle) operations preserves both uniqueness
properties.  (The original claim also covered the `/register` signup
endpoint, which violates email uniqueness — see the counterexample.) -/
theorem claim_C4_claim_sequences_preserve_uniqueness (reqs : List RegReq)
    (reg : Registry) (hE : emailsUnique reg) (hH : handlesUnique reg) :
    emailsUnique (reqs.foldl applyRegisterUsername reg) ∧
    handlesUnique (reqs.foldl applyRegisterUsername reg) := by
  induction reqs generalizing reg with
  | nil => exact ⟨hE, hH⟩
  | cons r rs ih =>
    rw [List.foldl_cons]
    have hstep := registerUsername_preserves_unique r.email r.username
      r.soulmark r.device_id r.new_id r.now reg hE hH
    exact ih (applyRegisterUsername reg r) hstep.1 hstep.2

theorem claim_C4_witness :
    emailsUnique { donations := [], identities := [], orders := [] } ∧
    handlesUnique { donations := [], identities := [], orders := [] } ∧
    (emailsUnique (List.foldl applyRegisterUsername
        { donations := [], identities := [], orders := [] }
        [{ email := "a@x.com", username := "Nova", soulmark := "mk",
            device_id := "", new_id := "u1", now := "t1" }]) ∧
     handlesUnique (List.foldl applyRegisterUsername
        { donations := [], identities := [], orders := [] }
        [{ email := "a@x.com", username := "Nova", soulmark := "mk",
            device_id := "", new_id := "u1", now := "t1" }])) :=
  ⟨by decide, by decide,
   claim_C4_claim_sequences_preserve_uniqueness _ _ (by decide) (by decide)⟩

/-- Claim C4 counterexample: the cited `/register` signup endpoint breaks the
email-uniqueness half of the claim.  Starting from a registry holding one
identity for `a@x.com` (handle `nova`) — a registry satisfying both
uniqueness invariants — a `/register` call for the same email with the fresh
handle `zeta` passes the username-conflict check and appends a second
identity bound to `a@x.com`. -/
theorem claim_C4_counterexample :
    emailsUnique
      { donations := [],
        identities := [{ identity_id := "i1", username := "nova",
                         email := "a@x.com", soulmarks := [],
                         registered_since := "t0", device_ids := [],
                         displayIdentity := "",
                         showDonationAmount := false }],
        orders := [] } ∧
    handlesUnique
      { donations := [],
        identities := [{ identity_id := "i1", username := "nova",
                         email := "a@x.com", soulmarks := [],
                         registered_since := "t0", device_ids := [],
                         displayIdentity := "",
                         showDonationAmount := false }],
        orders := [] } ∧
    ¬ emailsUnique
      (register "a@x.com" "zeta" "" "" false "u2" "t2"
        { donations := [],
          identities := [{ identity_id := "i1", username := "nova",
                           email := "a@x.com", soulmarks := [],
                           registered_since := "t0", device_ids := [],
                           displayIdentity := "",
                           showDonationAmount := false }],
          orders := [] }).2 := by
  refine ⟨by decide, by decide, by decide⟩


/-- Claim C2 (amended): when no donation binds the presented mark to the
canonical form of the presented email, the `/register-username` (claimHandle)
call never succeeds and never mutates the registry — so a mark minted for
email A can never claim a handle when presented with email B different from
A.  The rejection is `MarkNotOwned` whenever the required fields are present
and the email passes the disposable-email gate; a disposable email is
rejected earlier, as `DisposableEmail` (see the counterexample to the
original wording). -/
theorem claim_C2_mark_ownership_enforced
    (email username soulmark device_id new_id now : String) (reg : Registry)
    (hnoown : ∀ d ∈ reg.donations,
      ¬(d.soulmark = soulmark ∧ toLowerCase d.email = toLowerCase email)) :
    ((registerUsername email username soulmark device_id new_id now reg).2 =
        reg ∧
      ∀ i, (registerUsername email username soulmark device_id new_id now
        reg).1 ≠ RegisterResult.ok i) ∧
    (email ≠ "" → username ≠ "" → soulmark ≠ "" →
      isDisposableEmail email = false →
      (registerUsername email username soulmark device_id new_id now reg).1 =
        RegisterResult.markNotOwned) := by
  have howns : ownsSoulmarkB reg.donations soulmark (toLowerCase email) =
      false := by
    unfold ownsSoulmarkB
    rw [List.any_eq_false]
    intro d hd
    rw [Bool.and_eq_true, Bool.and_eq_true, beq_iff_eq, beq_iff_eq]
    rintro ⟨⟨hmk, -⟩, hem⟩
    exact hnoown d hd ⟨hmk, hem⟩
  constructor
  · simp only [registerUsername]
    by_cases h1 : (email == "" || username == "" || soulmark == "") = true
    · rw [if_pos h1]; exact ⟨rfl, by simp⟩
    rw [if_neg h1]
    by_cases h2 : isDisposableEmail email = true
    · rw [if_pos h2]; exact ⟨rfl, by simp⟩
    rw [if_neg h2]
    rw [howns]
    rw [if_pos (by simp)]
    exact ⟨rfl, by simp⟩
  · intro he hu hs hd
    have h1 : (email == "" || username == "" || soulmark == "") = false := by
      simp [he, hu, hs]
    simp only [registerUsername, h1]
    rw [if_neg (by simp)]
    rw [hd, if_neg (by simp)]
    rw [howns, if_pos (by simp)]

theorem claim_C2_witness :
    (((registerUsername "a@x.com" "nova" "mk9" "" "u9" "t9"
        { donations := [{ id := "s1", name := "Ann", email := "b@y.com",
                          amount := 2500, timestamp := "t0",
                          soulmark := "mk9", username_created := false,
                          identity_username := "", order_id := "" }],
          identities := [], orders := [] }).2 =
        { donations := [{ id := "s1", name := "Ann", email := "b@y.com",
                          amount := 2500, timestamp := "t0",
                          soulmark := "mk9", username_created := false,
                          identity_username := "", order_id := "" }],
          identities := [], orders := [] } ∧
      ∀ i, (registerUsername "a@x.com" "nova" "mk9" "" "u9" "t9"
        { donations := [{ id := "s1", name := "Ann", email := "b@y.com",
                          amount := 2500, timestamp := "t0",
                          soulmark := "mk9", username_created := false,
                          identity_username := "", order_id := "" }],
          identities := [], orders := [] }).1 ≠ RegisterResult.ok i) ∧
    ("a@x.com" ≠ "" → "nova" ≠ "" → "mk9" ≠ "" →
      isDisposableEmail "a@x.com" = false →
      (registerUsername "a@x.com" "nova" "mk9" "" "u9" "t9"
        { donations := [{ id := "s1", name := "Ann", email := "b@y.com",
                          amount := 2500, timestamp := "t0",
                          soulmark := "mk9", username_created := false,
                          identity_username := "", order_id := "" }],
          identities := [], orders := [] }).1 =
        RegisterResult.markNotOwned)) :=
  claim_C2_mark_ownership_enforced "a@x.com" "nova" "mk9" "" "u9" "t9" _
    (by decide)

/-- Claim C2 counterexample: the original claim names `MarkNotOwned` as the
rejection for every unowned mark, but a disposable presented email is
rejected as `DisposableEmail` before the ownership check runs: with an empty
donation ledger (so the mark is certainly not owned) and the email
`b@mailinator.com`, the call returns the disposable-email rejection, not
`MarkNotOwned`. -/
theorem claim_C2_counterexample :
    (registerUsername "b@mailinator.com" "nova" "mk1" "" "u1" "t1"
      { donations := [], identities := [], orders := [] }).1 =
      RegisterResult.disposableEmail ∧
    RegisterResult.disposableEmail ≠ RegisterResult.markNotOwned := by
  exact ⟨by decide, by decide⟩

/-- Claim C7 (amended): `/register-username` runs the disposable-email gate
before the mark-ownership check (the reverse of the specification's step
order), so for every input whose mark is not owned by the presented email
and whose email domain is deny-listed, the returned rejection is
`DisposableEmail`, not `MarkNotOwned`. -/
theorem claim_C7_disposable_gate_precedes_ownership
    (email username soulmark device_id new_id now : String) (reg : Registry)
    (he : email ≠ "") (hu : username ≠ "") (hs : soulmark ≠ "")
    (hdisp : isDisposableEmail email = true)
    (_hnoown : ∀ d ∈ reg.donations,
      ¬(d.soulmark = soulmark ∧ toLowerCase d.email = toLowerCase email)) :
    (registerUsername email username soulmark device_id new_id now reg).1 =
      RegisterResult.disposableEmail ∧
    (registerUsername email username soulmark device_id new_id now reg).1 ≠
      RegisterResult.markNotOwned := by
  have h1 : (email == "" || username == "" || soulmark == "") = false := by
    simp [he, hu, hs]
  simp only [registerUsername, h1]
  rw [if_neg (by simp)]
  rw [hdisp, if_pos rfl]
  exact ⟨rfl, by simp⟩

theorem claim_C7_witness :
    (registerUsername "c@yopmail.com" "zeta" "mk2" "" "u2" "t2"
      { donations := [], identities := [], orders := [] }).1 =
      RegisterResult.disposableEmail ∧
    (registerUsername "c@yopmail.com" "zeta" "mk2" "" "u2" "t2"
      { donations := [], identities := [], orders := [] }).1 ≠
      RegisterResult.markNotOwned :=
  claim_C7_disposable_gate_precedes_ownership "c@yopmail.com" "zeta" "mk2"
    "" "u2" "t2" _ (by decide) (by decide) (by decide) (by decide) (by decide)

/-- Claim C7 counterexample: the original claim asserts the mark-ownership
check precedes the disposable-email gate and predicts `MarkNotOwned` for an
input failing both.  With an empty ledger (mark not owned) and the
deny-listed email `d@trashmail.com`, the code instead rejects with
`DisposableEmail`. -/
theorem claim_C7_counterexample :
    isDisposableEmail "d@trashmail.com" = true ∧
    (registerUsername "d@trashmail.com" "omega" "mk3" "" "u3" "t3"
      { donations := [], identities := [], orders := [] }).1 =
      RegisterResult.disposableEmail ∧
    (registerUsername "d@trashmail.com" "omega" "mk3" "" "u3" "t3"
      { donations := [], identities := [], orders := [] }).1 ≠
      RegisterResult.markNotOwned := by
  exact ⟨by decide, by decide, by decide⟩


/-- Claim C3: once an identity's handle is non-empty, a `/register-username`
(claimHandle) call for the same canonical email with a different canonical
handle is rejected with `HandleFrozen` and leaves the registry (hence the
identity's handle) unchanged, while a call with the same canonical handle
succeeds and only accumulates the mark / device id, preserving the canonical
handle, email, id and creation time, and creating no new identity.  The
hypotheses state that the call presents complete fields and passes the
earlier gates (non-disposable email, owned mark, no cross-email handle
conflict), which is the situation the claim describes. -/
theorem claim_C3_handle_freeze
    (email username soulmark device_id new_id now : String) (reg : Registry)
    (ident : Identity)
    (he : email ≠ "") (hu : username ≠ "") (hs : soulmark ≠ "")
    (hdisp : isDisposableEmail email = false)
    (howns : ownsSoulmarkB reg.donations soulmark (toLowerCase email) = true)
    (hconf : reg.identities.find? (fun i =>
      toLowerCase i.username == toLowerCase username &&
        !(toLowerCase i.email == toLowerCase email)) = none)
    (hfind : reg.identities.find? (fun i =>
      toLowerCase i.email == toLowerCase email) = some ident)
    (hset : toLowerCase ident.username ≠ "") :
    (toLowerCase ident.username ≠ toLowerCase username →
      registerUsername email username soulmark device_id new_id now reg =
        (RegisterResult.handleFrozen, reg)) ∧
    (toLowerCase ident.username = toLowerCase username →
      ∃ i2,
        (registerUsername email username soulmark device_id new_id now
          reg).1 = RegisterResult.ok i2 ∧
        canonHandle i2 = canonHandle ident ∧
        i2.email = ident.email ∧
        i2.identity_id = ident.identity_id ∧
        i2.registered_since = ident.registered_since ∧
        (i2.soulmarks = ident.soulmarks ∨
          i2.soulmarks = ident.soulmarks ++ [soulmark]) ∧
        (i2.device_ids = ident.device_ids ∨
          i2.device_ids = ident.device_ids ++ [device_id]) ∧
        (registerUsername email username soulmark device_id new_id now
          reg).2.identities.length = reg.identities.length) := by
  have h1 : (email == "" || username == "" || soulmark == "") = false := by
    simp [he, hu, hs]
  constructor
  · intro hdiff
    simp only [registerUsername, h1]
    rw [if_neg (by simp)]
    rw [hdisp, if_neg (by simp)]
    rw [howns, if_neg (by simp)]
    rw [hconf, if_neg (by simp)]
    rw [hfind]
    simp only []
    rw [if_pos]
    rw [Bool.and_eq_true, Bool.not_eq_true', Bool.not_eq_true',
      beq_eq_false_iff_ne, beq_eq_false_iff_ne]
    exact ⟨hset, hdiff⟩
  · intro hsame
    refine ⟨accumulateIdentity ident (toLowerCase username) soulmark
      device_id, ?_, ?_, rfl, rfl, rfl, ?_, ?_, ?_⟩
    · simp only [registerUsername, h1]
      rw [if_neg (by simp)]
      rw [hdisp, if_neg (by simp)]
      rw [howns, if_neg (by simp)]
      rw [hconf, if_neg (by simp)]
      rw [hfind]
      simp only []
      rw [if_neg]
      rw [Bool.and_eq_true, Bool.not_eq_true', Bool.not_eq_true',
        beq_eq_false_iff_ne, beq_eq_false_iff_ne]
      rintro ⟨-, hne⟩
      exact hne hsame
    · show toLowerCase (toLowerCase username) = toLowerCase ident.username
      rw [toLowerCase_idem, hsame]
    · by_cases hc : ident.soulmarks.contains soulmark = true
      · left
        show (if ident.soulmarks.contains soulmark = true then ident.soulmarks
            else ident.soulmarks ++ [soulmark]) = ident.soulmarks
        rw [if_pos hc]
      · right
        show (if ident.soulmarks.contains soulmark = true then ident.soulmarks
            else ident.soulmarks ++ [soulmark]) = ident.soulmarks ++ [soulmark]
        rw [if_neg hc]
    · by_cases hc : (!(device_id == "") &&
          !(ident.device_ids.contains device_id)) = true
      · right
        show (if (!(device_id == "") &&
              !(ident.device_ids.contains device_id)) = true then
            ident.device_ids ++ [device_id] else ident.device_ids) =
          ident.device_ids ++ [device_id]
        rw [if_pos hc]
      · left
        show (if (!(device_id == "") &&
              !(ident.device_ids.contains device_id)) = true then
            ident.device_ids ++ [device_id] else ident.device_ids) =
          ident.device_ids
        rw [if_neg hc]
    · simp only [registerUsername, h1]
      rw [if_neg (by simp)]
      rw [hdisp, if_neg (by simp)]
      rw [howns, if_neg (by simp)]
      rw [hconf, if_neg (by simp)]
      rw [hfind]
      simp only []
      rw [if_neg]
      · exact length_updateFirst _ _ _
      rw [Bool.and_eq_true, Bool.not_eq_true', Bool.not_eq_true',
        beq_eq_false_iff_ne, beq_eq_false_iff_ne]
      rintro ⟨-, hne⟩
      exact hne hsame

theorem claim_C3_witness :
    (toLowerCase "omega" ≠ toLowerCase "Nova" →
      registerUsername "A@X.com" "Nova" "mkA" "dev1" "u1" "t1"
        { donations := [{ id := "s1", name := "Ann", email := "a@x.com",
                          amount := 2500, timestamp := "t0",
                          soulmark := "mkA", username_created := false,
                          identity_username := "", order_id := "" }],
          identities := [{ identity_id := "i1", username := "omega",
                           email := "a@x.com", soulmarks := ["mkA"],
                           registered_since := "t0", device_ids := [],
                           displayIdentity := "",
                           showDonationAmount := false }],
          orders := [] } =
        (RegisterResult.handleFrozen,
          { donations := [{ id := "s1", name := "Ann", email := "a@x.com",
                            amount := 2500, timestamp := "t0",
                            soulmark := "mkA", username_created := false,
                            identity_username := "", order_id := "" }],
            identities := [{ identity_id := "i1", username := "omega",
                             email := "a@x.com", soulmarks := ["mkA"],
                             registered_since := "t0", device_ids := [],
                             displayIdentity := "",
                             showDonationAmount := false }],
            orders := [] })) ∧
    (toLowerCase "omega" = toLowerCase "Nova" →
      ∃ i2,
        (registerUsername "A@X.com" "Nova" "mkA" "dev1" "u1" "t1"
          { donations := [{ id := "s1", name := "Ann", email := "a@x.com",
                            amount := 2500, timestamp := "t0",
                            soulmark := "mkA", username_created := false,
                            identity_username := "", order_id := "" }],
            identities := [{ identity_id := "i1", username := "omega",
                             email := "a@x.com", soulmarks := ["mkA"],
                             registered_since := "t0", device_ids := [],
                             displayIdentity := "",
                             showDonationAmount := false }],
            orders := [] }).1 = RegisterResult.ok i2 ∧
        canonHandle i2 = toLowerCase "omega" ∧
        i2.email = "a@x.com" ∧
        i2.identity_id = "i1" ∧
        i2.registered_since = "t0" ∧
        (i2.soulmarks = ["mkA"] ∨ i2.soulmarks = ["mkA"] ++ ["mkA"]) ∧
        (i2.device_ids = ([] : List String) ∨
          i2.device_ids = ([] : List String) ++ ["dev1"]) ∧
        (registerUsername "A@X.com" "Nova" "mkA" "dev1" "u1" "t1"
          { donations := [{ id := "s1", name := "Ann", email := "a@x.com",
                            amount := 2500, timestamp := "t0",
                            soulmark := "mkA", username_created := false,
                            identity_username := "", order_id := "" }],
            identities := [{ identity_id := "i1", username := "omega",
                             email := "a@x.com", soulmarks := ["mkA"],
                             registered_since := "t0", device_ids := [],
                             displayIdentity := "",
                             showDonationAmount := false }],
            orders := [] }).2.identities.length = 1) :=
  claim_C3_handle_freeze "A@X.com" "Nova" "mkA" "dev1" "u1" "t1"
    { donations := [{ id := "s1", name := "Ann", email := "a@x.com",
                      amount := 2500, timestamp := "t0",
                      soulmark := "mkA", username_created := false,
                      identity_username := "", order_id := "" }],
      identities := [{ identity_id := "i1", username := "omega",
                       email := "a@x.com", soulmarks := ["mkA"],
                       registered_since := "t0", device_ids := [],
                       displayIdentity := "",
                       showDonationAmount := false }],
      orders := [] }
    { identity_id := "i1", username := "omega", email := "a@x.com",
      soulmarks := ["mkA"], registered_since := "t0", device_ids := [],
      displayIdentity := "", showDonationAmount := false }
    (by decide) (by decide) (by decide) (by decide) (by decide) (by decide)
    (by decide) (by decide)


/-- Claim C6 (amended): `/create-order` rejects with a validation error
(HTTP 400: missing email/items, or non-positive total) whenever the item
list is empty or the computed total is not positive, leaving the registry
unchanged; and — given a nonempty email — otherwise appends a
`pending_payment` order whose total is exactly the sum, over the items, of
`amount_cents` when that field is a number, else `round(amount × 100)` when
`amount` is a number.  (The original claim had no email proviso; an empty
email is also rejected — see the counterexample.) -/
theorem claim_C6_create_order_validation
    (appName email : String) (items : List (Option LineItem))
    (billing_mode order_id now : String) (reg : Registry) :
    ((items = [] ∨ orderTotalCents items ≤ 0) →
      ((createOrder appName email items billing_mode order_id now reg).1 =
          CreateOrderResult.missingEmailOrItems ∨
        (createOrder appName email items billing_mode order_id now reg).1 =
          CreateOrderResult.invalidTotal) ∧
      (createOrder appName email items billing_mode order_id now reg).2 =
        reg) ∧
    (email ≠ "" → items ≠ [] → 0 < orderTotalCents items →
      ∃ o : OrderRecord,
        (createOrder appName email items billing_mode order_id now reg).1 =
          CreateOrderResult.ok o ∧
        o.status = "pending_payment" ∧
        o.total_amount_cents = (items.map specItemMinorUnits).sum ∧
        (createOrder appName email items billing_mode order_id now
          reg).2.orders = reg.orders ++ [o] ∧
        (createOrder appName email items billing_mode order_id now
          reg).2.donations = reg.donations ∧
        (createOrder appName email items billing_mode order_id now
          reg).2.identities = reg.identities) := by
  constructor
  · intro h
    simp only [createOrder]
    by_cases h1 : (email == "" || items.length == 0) = true
    · rw [if_pos h1]
      exact ⟨Or.inl rfl, rfl⟩
    rw [if_neg h1]
    have hne : items ≠ [] := by
      intro hnil
      apply h1
      simp [hnil]
    have hle : orderTotalCents items ≤ 0 := by
      rcases h with h | h
      · exact absurd h hne
      · exact h
    rw [if_pos hle]
    exact ⟨Or.inr rfl, rfl⟩
  · intro he hne hpos
    have h1 : (email == "" || items.length == 0) = false := by
      simp [he, List.length_eq_zero, hne]
    have hnle : ¬ orderTotalCents items ≤ 0 := by omega
    simp only [createOrder, h1]
    rw [if_neg (by simp)]
    rw [if_neg hnle]
    refine ⟨_, rfl, rfl, ?_, rfl, rfl, rfl⟩
    exact orderTotalCents_eq_sum items

theorem claim_C6_witness :
    ∃ o : OrderRecord,
      (createOrder "LawAidAI" "u@x.com"
        [some { sku := "lawaid_basic_monthly", label := "LawAidAI Basic",
                itemKind := "subscription", interval := "month",
                amount_cents := some 999, amount := none },
         some { sku := "lawaid_addon", label := "LawAidAI Addon",
                itemKind := "one_time", interval := "",
                amount_cents := none, amount := some (5.49 : ℚ) },
         none]
        "one_time" "ord-1" "t1"
        { donations := [], identities := [], orders := [] }).1 =
        CreateOrderResult.ok o ∧
      o.status = "pending_payment" ∧
      o.total_amount_cents =
        (([some { sku := "lawaid_basic_monthly", label := "LawAidAI Basic",
                  itemKind := "subscription", interval := "month",
                  amount_cents := some 999, amount := none },
           some { sku := "lawaid_addon", label := "LawAidAI Addon",
                  itemKind := "one_time", interval := "",
                  amount_cents := none, amount := some (5.49 : ℚ) },
           none] : List (Option LineItem)).map specItemMinorUnits).sum ∧
      (createOrder "LawAidAI" "u@x.com"
        [some { sku := "lawaid_basic_monthly", label := "LawAidAI Basic",
                itemKind := "subscription", interval := "month",
                amount_cents := some 999, amount := none },
         some { sku := "lawaid_addon", label := "LawAidAI Addon",
                itemKind := "one_time", interval := "",
                amount_cents := none, amount := some (5.49 : ℚ) },
         none]
        "one_time" "ord-1" "t1"
        { donations := [], identities := [], orders := [] }).2.orders =
        ([] : List OrderRecord) ++ [o] ∧
      (createOrder "LawAidAI" "u@x.com"
        [some { sku := "lawaid_basic_monthly", label := "LawAidAI Basic",
                itemKind := "subscription", interval := "month",
                amount_cents := some 999, amount := none },
         some { sku := "lawaid_addon", label := "LawAidAI Addon",
                itemKind := "one_time", interval := "",
                amount_cents := none, amount := some (5.49 : ℚ) },
         none]
        "one_time" "ord-1" "t1"
        { donations := [], identities := [], orders := [] }).2.donations =
        ([] : List DonationRecord) ∧
      (createOrder "LawAidAI" "u@x.com"
        [some { sku := "lawaid_basic_monthly", label := "LawAidAI Basic",
                itemKind := "subscription", interval := "month",
                amount_cents := some 999, amount := none },
         some { sku := "lawaid_addon", label := "LawAidAI Addon",
                itemKind := "one_time", interval := "",
                amount_cents := none, amount := some (5.49 : ℚ) },
         none]
        "one_time" "ord-1" "t1"
        { donations := [], identities := [], orders := [] }).2.identities =
        ([] : List Identity) :=
  (claim_C6_create_order_validation "LawAidAI" "u@x.com" _ "one_time" "ord-1"
    "t1" { donations := [], identities := [], orders := [] }).2
    (by decide) (by simp)
    (by norm_num [orderTotalCents, itemAdd, jsRound])

/-- Claim C6 counterexample: the original claim promises an order for every
call whose item list is nonempty and whose computed total is positive, but a
call with an empty email is rejected by the same validation branch even
then: with one 500-cent item (so a nonempty list and a positive total) and
`email = ""`, no order is created. -/
theorem claim_C6_counterexample :
    ([some { sku := "x", label := "X", itemKind := "one_time",
             interval := "", amount_cents := some 500, amount := none }] :
      List (Option LineItem)) ≠ [] ∧
    0 < orderTotalCents
      [some { sku := "x", label := "X", itemKind := "one_time",
              interval := "", amount_cents := some 500, amount := none }] ∧
    (createOrder "LawAidAI" ""
      [some { sku := "x", label := "X", itemKind := "one_time",
              interval := "", amount_cents := some 500, amount := none }]
      "one_time" "ord-2" "t2"
      { donations := [], identities := [], orders := [] }) =
      (CreateOrderResult.missingEmailOrItems,
        { donations := [], identities := [], orders := [] }) := by
  refine ⟨by simp, by decide, by decide⟩


/-- Claim C1: confirming a payment session whose donation record already
exists appends no duplicate record and mints no second mark: the record
count (total and per session id) is unchanged, the stored and returned entry
keeps the existing id, mark, name, email, amount and creation time whenever
those were already non-empty (only previously-empty fields are backfilled),
and the identity-binding fields are untouched.  Together with the
fresh-record branch this gives: confirming the same session id twice yields
exactly one donation record and exactly one mark. -/
theorem claim_C1_repeat_confirmation_idempotent
    (hash : String → String) (secret : String) (s : StripeSession)
    (now nonce : String) (reg : Registry) (d : DonationRecord)
    (hpaid : s.payment_status = "paid")
    (hfind : reg.donations.find? (fun x => x.id == s.id) = some d) :
    (verifyDonation hash secret (some s) now nonce reg).2.donations.length =
      reg.donations.length ∧
    (verifyDonation hash secret (some s) now nonce reg).2.donations.countP
      (fun x => x.id == s.id) =
      reg.donations.countP (fun x => x.id == s.id) ∧
    ∃ e : DonationRecord,
      (verifyDonation hash secret (some s) now nonce reg).1 =
        VerifyResult.verified e s.metadata_order_id ∧
      (verifyDonation hash secret (some s) now nonce reg).2.donations.find?
        (fun x => x.id == s.id) = some e ∧
      e.id = d.id ∧
      (d.soulmark ≠ "" → e.soulmark = d.soulmark) ∧
      (d.name ≠ "" → e.name = d.name) ∧
      (d.email ≠ "" → e.email = d.email) ∧
      (d.amount ≠ 0 → e.amount = d.amount) ∧
      (d.timestamp ≠ "" → e.timestamp = d.timestamp) ∧
      e.username_created = d.username_created ∧
      e.identity_username = d.identity_username := by
  have hb : (s.payment_status == "paid") = true := beq_iff_eq.mpr hpaid
  simp only [verifyDonation, hb]
  rw [if_neg (by simp)]
  rw [hfind]
  simp only []
  refine ⟨length_updateFirst _ _ _, ?_,
    _, rfl, ?_, rfl, ?_, ?_, ?_, ?_, ?_, rfl, rfl⟩
  · apply countP_updateFirst _ reg.donations
    intro x
    rfl
  · apply find?_updateFirst hfind
    have hpd := List.find?_some hfind
    exact hpd
  · intro h
    have hb2 : (d.soulmark == "") = false := beq_eq_false_iff_ne.mpr h
    simp [backfillDonation, hb2]
  · intro h
    have hb2 : (d.name == "") = false := beq_eq_false_iff_ne.mpr h
    simp [backfillDonation, hb2]
  · intro h
    have hb2 : (d.email == "") = false := beq_eq_false_iff_ne.mpr h
    simp [backfillDonation, hb2]
  · intro h
    have hb2 : (d.amount == 0) = false := beq_eq_false_iff_ne.mpr h
    simp [backfillDonation, hb2]
  · intro h
    have hb2 : (d.timestamp == "") = false := beq_eq_false_iff_ne.mpr h
    simp [backfillDonation, hb2]

theorem claim_C1_witness :
    (verifyDonation (fun x => x) "sec"
      (some { id := "sess1", payment_status := "paid",
              customer_details_email := "a@x.com",
              customer_details_name := "Ann", customer_email := "",
              metadata_donorName := "", metadata_order_id := "",
              amount_total := 2500 }) "T2" "n2"
      { donations := [{ id := "sess1", name := "Ann", email := "a@x.com",
                        amount := 2500, timestamp := "T1",
                        soulmark := "mk1", username_created := false,
                        identity_username := "", order_id := "" }],
        identities := [], orders := [] }).2.donations.length = 1 ∧
    (verifyDonation (fun x => x) "sec"
      (some { id := "sess1", payment_status := "paid",
              customer_details_email := "a@x.com",
              customer_details_name := "Ann", customer_email := "",
              metadata_donorName := "", metadata_order_id := "",
              amount_total := 2500 }) "T2" "n2"
      { donations := [{ id := "sess1", name := "Ann", email := "a@x.com",
                        amount := 2500, timestamp := "T1",
                        soulmark := "mk1", username_created := false,
                        identity_username := "", order_id := "" }],
        identities := [], orders := [] }).2.donations.countP
      (fun x => x.id == "sess1") = 1 ∧
    ∃ e : DonationRecord,
      (verifyDonation (fun x => x) "sec"
        (some { id := "sess1", payment_status := "paid",
                customer_details_email := "a@x.com",
                customer_details_name := "Ann", customer_email := "",
                metadata_donorName := "", metadata_order_id := "",
                amount_total := 2500 }) "T2" "n2"
        { donations := [{ id := "sess1", name := "Ann", email := "a@x.com",
                          amount := 2500, timestamp := "T1",
                          soulmark := "mk1", username_created := false,
                          identity_username := "", order_id := "" }],
          identities := [], orders := [] }).1 =
        VerifyResult.verified e "" ∧
      (verifyDonation (fun x => x) "sec"
        (some { id := "sess1", payment_status := "paid",
                customer_details_email := "a@x.com",
                customer_details_name := "Ann", customer_email := "",
                metadata_donorName := "", metadata_order_id := "",
                amount_total := 2500 }) "T2" "n2"
        { donations := [{ id := "sess1", name := "Ann", email := "a@x.com",
                          amount := 2500, timestamp := "T1",
                          soulmark := "mk1", username_created := false,
                          identity_username := "", order_id := "" }],
          identities := [], orders := [] }).2.donations.find?
        (fun x => x.id == "sess1") = some e ∧
      e.id = "sess1" ∧
      ("mk1" ≠ "" → e.soulmark = "mk1") ∧
      ("Ann" ≠ "" → e.name = "Ann") ∧
      ("a@x.com" ≠ "" → e.email = "a@x.com") ∧
      ((2500 : Int) ≠ 0 → e.amount = 2500) ∧
      ("T1" ≠ "" → e.timestamp = "T1") ∧
      e.username_created = false ∧
      e.identity_username = "" :=
  claim_C1_repeat_confirmation_idempotent (fun x => x) "sec"
    { id := "sess1", payment_status := "paid",
      customer_details_email := "a@x.com", customer_details_name := "Ann",
      customer_email := "", metadata_donorName := "",
      metadata_order_id := "", amount_total := 2500 } "T2" "n2"
    { donations := [{ id := "sess1", name := "Ann", email := "a@x.com",
                      amount := 2500, timestamp := "T1", soulmark := "mk1",
                      username_created := false, identity_username := "",
                      order_id := "" }],
      identities := [], orders := [] }
    { id := "sess1", name := "Ann", email := "a@x.com", amount := 2500,
      timestamp := "T1", soulmark := "mk1", username_created := false,
      identity_username := "", order_id := "" }
    (by decide) (by decide)


/-- Claim C5 (amended): reconciling a payment that correlates to an order
already `paid` (and already carrying a mark) leaves the order's status and
mark unchanged but re-stamps `updated_at` with the reconciliation time — the
stored order becomes exactly the old order with `updated_at := now`.  (The
original claim asserted `updated_at` is also unchanged; the counterexample
shows it is rewritten.) -/
theorem claim_C5_paid_order_restamps_updated_at
    (hash : String → String) (secret : String) (s : StripeSession)
    (now nonce : String) (reg : Registry) (o : OrderRecord)
    (hpaid : s.payment_status = "paid")
    (hoid : s.metadata_order_id ≠ "")
    (hfind : reg.orders.find? (fun x => x.order_id == s.metadata_order_id) =
      some o)
    (hopaid : o.status = "paid")
    (homark : o.soulmark ≠ "") :
    (verifyDonation hash secret (some s) now nonce reg).2.orders.find?
      (fun x => x.order_id == s.metadata_order_id) =
      some { o with updated_at := now } := by
  have hb : (s.payment_status == "paid") = true := beq_iff_eq.mpr hpaid
  have hb2 : (s.metadata_order_id == "") = false := beq_eq_false_iff_ne.mpr hoid
  have hpo := List.find?_some hfind
  have hset : ∀ m, settleOrder o m now = { o with updated_at := now } := by
    intro m
    have h1 : (o.soulmark == "") = false := beq_eq_false_iff_ne.mpr homark
    unfold settleOrder
    rw [h1]
    cases o
    simp_all
  have hcond : (!(s.metadata_order_id == "") &&
      (reg.orders.find? (fun x =>
        x.order_id == s.metadata_order_id)).isSome) = true := by
    rw [hb2, hfind]
    rfl
  have hupd : ∀ m : String,
      List.find? (fun x => x.order_id == s.metadata_order_id)
        (updateFirst (fun x => x.order_id == s.metadata_order_id)
          (fun x => settleOrder x m now) reg.orders) =
        some (settleOrder o m now) := by
    intro m
    apply find?_updateFirst hfind
    exact hpo
  simp only [verifyDonation, hb]
  rw [if_neg (by simp)]
  cases hdf : reg.donations.find? (fun x => x.id == s.id) with
  | none =>
    simp only []
    rw [hcond, if_pos rfl]
    rw [hupd, hset]
  | some d =>
    simp only []
    rw [hcond, if_pos rfl]
    rw [hupd, hset]

theorem claim_C5_witness :
    (verifyDonation (fun x => x) "sec"
      (some { id := "sess1", payment_status := "paid",
              customer_details_email := "a@x.com",
              customer_details_name := "", customer_email := "",
              metadata_donorName := "", metadata_order_id := "ord1",
              amount_total := 2500 }) "2024-02-02" "n"
      { donations := [{ id := "sess1", name := "Ann", email := "a@x.com",
                        amount := 2500, timestamp := "t0",
                        soulmark := "mk", username_created := false,
                        identity_username := "", order_id := "ord1" }],
        identities := [],
        orders := [{ order_id := "ord1", app := "LawAidAI",
                     email := "a@x.com", items := [],
                     billing_mode := "one_time",
                     total_amount_cents := 2500, status := "paid",
                     created_at := "t0", stripe_session_id := "",
                     stripe_subscription_id := "", soulmark := "mk",
                     updated_at := "2024-01-01" }] }).2.orders.find?
      (fun x => x.order_id == "ord1") =
      some { order_id := "ord1", app := "LawAidAI", email := "a@x.com",
             items := [], billing_mode := "one_time",
             total_amount_cents := 2500, status := "paid",
             created_at := "t0", stripe_session_id := "",
             stripe_subscription_id := "", soulmark := "mk",
             updated_at := "2024-02-02" } :=
  claim_C5_paid_order_restamps_updated_at (fun x => x) "sec"
    { id := "sess1", payment_status := "paid",
      customer_details_email := "a@x.com", customer_details_name := "",
      customer_email := "", metadata_donorName := "",
      metadata_order_id := "ord1", amount_total := 2500 } "2024-02-02" "n"
    { donations := [{ id := "sess1", name := "Ann", email := "a@x.com",
                      amount := 2500, timestamp := "t0", soulmark := "mk",
                      username_created := false, identity_username := "",
                      order_id := "ord1" }],
      identities := [],
      orders := [{ order_id := "ord1", app := "LawAidAI",
                   email := "a@x.com", items := [],
                   billing_mode := "one_time", total_amount_cents := 2500,
                   status := "paid", created_at := "t0",
                   stripe_session_id := "", stripe_subscription_id := "",
                   soulmark := "mk", updated_at := "2024-01-01" }] }
    { order_id := "ord1", app := "LawAidAI", email := "a@x.com",
      items := [], billing_mode := "one_time", total_amount_cents := 2500,
      status := "paid", created_at := "t0", stripe_session_id := "",
      stripe_subscription_id := "", soulmark := "mk",
      updated_at := "2024-01-01" }
    (by decide) (by decide) (by decide) (by decide) (by decide)

/-- Claim C5 counterexample: reconciling a session correlated to an order
that is already `paid` rewrites the order's `updated_at` (from
`2024-01-01` to the reconciliation time `2024-02-02`), contradicting the
original claim that `updated_at` is left unchanged. -/
theorem claim_C5_counterexample :
    (verifyDonation (fun x => x) "sec"
      (some { id := "sess1", payment_status := "paid",
              customer_details_email := "a@x.com",
              customer_details_name := "", customer_email := "",
              metadata_donorName := "", metadata_order_id := "ord1",
              amount_total := 2500 }) "2024-02-02" "n"
      { donations := [{ id := "sess1", name := "Ann", email := "a@x.com",
                        amount := 2500, timestamp := "t0",
                        soulmark := "mk", username_created := false,
                        identity_username := "", order_id := "ord1" }],
        identities := [],
        orders := [{ order_id := "ord1", app := "LawAidAI",
                     email := "a@x.com", items := [],
                     billing_mode := "one_time",
                     total_amount_cents := 2500, status := "paid",
                     created_at := "t0", stripe_session_id := "",
                     stripe_subscription_id := "", soulmark := "mk",
                     updated_at := "2024-01-01" }] }).2.orders.map
      (fun x => x.updated_at) = ["2024-02-02"] ∧
    (["2024-02-02"] : List String) ≠ ["2024-01-01"] := by
  exact ⟨by decide, by decide⟩

end FundTracker
